import Mathlib

/-!
Shallow embedding of the ignition-delivery core of
cluster-api-provider-libvirt (pkg/cloud/libvirt/client/ignition.go, in its
current form and in the older variant kept in the repository), together with
theorems settling the specification claims about it.

External collaborators (the OS filesystem, the guestfish process, the kube
secret store, the libvirt storage pool) are modelled as oracles supplied in
environment records; the control flow, string manipulation and data flow of
the repository functions are transcribed directly from the Go source.
-/

set_option maxHeartbeats 1000000

namespace LibvirtIgnition

/-! ## Go string primitives used by the source -/

/-- Model of Go strings.Split for a one-character separator (the source only
splits on ";" and "=").  Splits around every occurrence of the separator,
keeping empty segments; on the empty string it returns one empty segment,
exactly as Go does. -/
def goSplitAux (sep : Char) (acc : List Char) : List Char → List String
  | [] => [String.mk acc.reverse]
  | c :: cs =>
    if c = sep then String.mk acc.reverse :: goSplitAux sep [] cs
    else goSplitAux sep (c :: acc) cs

/-- strings.Split s sep for a single-character sep. -/
def goSplit (s : String) (sep : Char) : List String :=
  goSplitAux sep [] s.data

/-- unicode.IsSpace, as used by Go strings.TrimSpace: ASCII whitespace,
the two Latin-1 spaces, and the Unicode White_Space code points. -/
def goIsSpace (c : Char) : Bool :=
  c = ' ' || c = '\t' || c = '\n' || c = '\u000B' || c = '\u000C' ||
  c = '\r' || c = '\u0085' || c = '\u00A0' || c = '\u1680' ||
  ('\u2000' ≤ c && c ≤ '\u200A') ||
  c = '\u2028' || c = '\u2029' || c = '\u202F' || c = '\u205F' || c = '\u3000'

/-- strings.TrimSpace: drop leading and trailing whitespace. -/
def goTrimSpace (s : String) : String :=
  String.mk (((s.data.dropWhile goIsSpace).reverse.dropWhile goIsSpace).reverse)

/-! ## Process execution adapter (execCmd / startCmd / genCmd) -/

/-- The relevant fields of Go os/exec.Cmd: the resolved executable path,
the argument vector (Args[0] is the command name, as exec.Command sets it),
and the environment override (none models a nil Env, i.e. inheriting the
process environment). -/
structure Cmd where
  Path : String
  Args : List String
  Env : Option (List String)
deriving DecidableEq, Repr

/-- exec.Cmd.Env is assigned only when the supplied slice is non-nil and
non-empty (genCmd: if env != nil and len(env) > 0). -/
def envField : Option (List String) → Option (List String)
  | some l => if 0 < l.length then some l else none
  | none => none

/-- genCmd from ignition.go: executable is "guestfish"; with useRoot the
command is wrapped as sudo --preserve-env guestfish args..., otherwise run
directly.  lookPath models exec.Command resolving Cmd.Path for a bare name. -/
def genCmd (lookPath : String → String) (useRoot : Bool)
    (env : Option (List String)) (args : List String) : Cmd :=
  if useRoot then
    { Path := lookPath "sudo"
      Args := "sudo" :: "--preserve-env" :: "guestfish" :: args
      Env := envField env }
  else
    { Path := lookPath "guestfish"
      Args := "guestfish" :: args
      Env := envField env }

/-- The command line appearing in wrapped error messages:
cmd.Path followed by strings.Join(cmd.Args, " "). -/
def cmdLine (c : Cmd) : String :=
  c.Path ++ " " ++ String.intercalate " " c.Args

/-- errors.Wrapf message of execCmd on a non-nil error. -/
def wrapRun (c : Cmd) (e : String) : String :=
  "error running command \x27" ++ cmdLine c ++ "\x27: " ++ e

/-- errors.Wrapf message of startCmd when StdoutPipe fails. -/
def wrapPipe (c : Cmd) (e : String) : String :=
  "error getting stdout pipe for command \x27" ++ cmdLine c ++ "\x27: " ++ e

/-- errors.Wrapf message of startCmd when Start fails. -/
def wrapStart (c : Cmd) (e : String) : String :=
  "error starting command \x27" ++ cmdLine c ++ "\x27: " ++ e

/-- Oracle for the OS and the guestfish tool, as seen by the current
variant of the code: path resolution, CombinedOutput of a synchronous
invocation (output, error), and the three effects inside startCmd
(stdout-pipe creation, Start, and reading the stream). -/
structure World where
  lookPath : String → String
  run : Cmd → String × Option String
  pipeErr : Cmd → Option String
  startErr : Cmd → Option String
  readResult : Cmd → Except String String

/-- execCmd from ignition.go: build the command via genCmd, take its
combined output, and wrap any error with the literal command line. -/
def execCmd (w : World) (useRoot : Bool) (env : Option (List String))
    (args : List String) : String × Option String :=
  let cmd := genCmd w.lookPath useRoot env args
  match w.run cmd with
  | (out, none) => (out, none)
  | (out, some e) => (out, some (wrapRun cmd e))

/-- startCmd from ignition.go: start the command without waiting for it;
failure to obtain the pipe or to start is wrapped with the command line,
a read failure is returned as-is (readOutput returns the bare error). -/
def startCmd (w : World) (useRoot : Bool) (env : Option (List String))
    (args : List String) : String × Option String :=
  let cmd := genCmd w.lookPath useRoot env args
  match w.pipeErr cmd with
  | some e => ("", some (wrapPipe cmd e))
  | none =>
    match w.startErr cmd with
    | some e => ("", some (wrapStart cmd e))
    | none =>
      match w.readResult cmd with
      | .error e => ("", some e)
      | .ok outMsg => (outMsg, none)

/-! ## Domain model (the slice of libvirt-go-xml the source reads/writes) -/

structure DomainDiskSourceFile where
  File : String
deriving DecidableEq, Repr

structure DomainDiskSource where
  File : Option DomainDiskSourceFile
deriving DecidableEq, Repr

structure DomainDisk where
  Source : Option DomainDiskSource
deriving DecidableEq, Repr

structure DomainDeviceList where
  Disks : List DomainDisk
deriving DecidableEq, Repr

structure DomainQEMUCommandlineArg where
  Value : String
deriving DecidableEq, Repr

structure DomainQEMUCommandline where
  Args : List DomainQEMUCommandlineArg
deriving DecidableEq, Repr

structure Domain where
  Devices : DomainDeviceList
  QEMUCommandline : Option DomainQEMUCommandline
deriving DecidableEq, Repr

/-- The unguarded access domainDef.Devices.Disks[0].Source.File.File.
Returns none exactly when the Go expression would panic (index out of
range on an empty disk list, nil dereference of Source or of File). -/
def diskSourceFile (d : Domain) : Option String :=
  match d.Devices.Disks with
  | [] => none
  | disk :: _ =>
    match disk.Source with
    | none => none
    | some src =>
      match src.File with
      | none => none
      | some f => some f.File

/-! ## Filesystem injection session, current variant (injectIgnitionByGuestfish) -/

/-- Result of running one of the injection functions.  panicked models a Go
runtime panic (index out of range / nil dereference), distinct from a
returned error. -/
inductive Outcome where
  | ok : Outcome
  | err : String → Outcome
  | panicked : Outcome
deriving DecidableEq, Repr

/-- Observable behaviour of the current injectIgnitionByGuestfish: its
outcome, the external invocations issued in order, and any process-global
setenv calls made (the current variant makes none; the field exists so the
absence is a statement about the code, comparable with the older variant). -/
structure InjectOut where
  outcome : Outcome
  trace : List Cmd
  setenvs : List (String × String)
deriving Repr

/-- The argument lists of the seven guestfish subcommands, as written in the
source. -/
def listenArgs (diskFile : String) : List String := ["--listen", "-a", diskFile]

def runArgs : List String := ["--remote", "--", "run"]

def findfsArgs : List String := ["--remote", "--", "findfs-label", "boot"]

def mountArgs (bootDisk : String) : List String := ["--remote", "--", "mount", bootDisk, "/"]

def uploadArgs (ignitionFile : String) : List String :=
  ["--remote", "--", "upload", ignitionFile, "/ignition/config.ign"]

def umountArgs : List String := ["--remote", "--", "umount-all"]

def exitArgs : List String := ["--remote", "--", "exit"]

/-- injectIgnitionByGuestfish from the current ignition.go: start guestfish
in listen mode on the first disk backing file, parse the GUESTFISH_PID
handle from its output, then drive run / findfs-label boot / mount /
upload / umount-all / exit through execCmd, each carrying the handle as a
per-invocation environment override. -/
def injectIgnitionByGuestfish (w : World) (domainDef : Domain)
    (ignitionFile : String) : InjectOut :=
  match diskSourceFile domainDef with
  | none => ⟨.panicked, [], []⟩
  | some diskFile =>
    let c0 := genCmd w.lookPath true none (listenArgs diskFile)
    match startCmd w true none (listenArgs diskFile) with
    | (_, some e) => ⟨.err e, [c0], []⟩
    | (output, none) =>
      let strArray := goSplit output ';'
      if strArray.length ≠ 2 then
        ⟨.err ("Invalid output when starting guestfish: " ++ output), [c0], []⟩
      else
        let strArray1 := goSplit strArray[0]! '='
        if strArray1.length ≠ 2 then
          ⟨.err ("failed to get the guestfish PID from " ++ output), [c0], []⟩
        else
          let env := some [strArray[0]!]
          let c1 := genCmd w.lookPath true env runArgs
          match execCmd w true env runArgs with
          | (_, some e) => ⟨.err e, [c0, c1], []⟩
          | (_, none) =>
            let c2 := genCmd w.lookPath true env findfsArgs
            match execCmd w true env findfsArgs with
            | (_, some e) => ⟨.err e, [c0, c1, c2], []⟩
            | (output2, none) =>
              let bootDisk := goTrimSpace output2
              if bootDisk.length = 0 then
                ⟨.err "failed to get the boot filesystem", [c0, c1, c2], []⟩
              else
                let c3 := genCmd w.lookPath true env (mountArgs bootDisk)
                match execCmd w true env (mountArgs bootDisk) with
                | (_, some e) => ⟨.err e, [c0, c1, c2, c3], []⟩
                | (_, none) =>
                  let c4 := genCmd w.lookPath true env (uploadArgs ignitionFile)
                  match execCmd w true env (uploadArgs ignitionFile) with
                  | (_, some e) => ⟨.err e, [c0, c1, c2, c3, c4], []⟩
                  | (_, none) =>
                    let c5 := genCmd w.lookPath true env umountArgs
                    match execCmd w true env umountArgs with
                    | (_, some e) => ⟨.err e, [c0, c1, c2, c3, c4, c5], []⟩
                    | (_, none) =>
                      let c6 := genCmd w.lookPath true env exitArgs
                      match execCmd w true env exitArgs with
                      | (_, some e) => ⟨.err e, [c0, c1, c2, c3, c4, c5, c6], []⟩
                      | (_, none) => ⟨.ok, [c0, c1, c2, c3, c4, c5, c6], []⟩

/-! ## Filesystem injection session, older variant (src/unnamed/part_000) -/

/-- Oracle for the older variant, whose execCmd and startCmd run guestfish
directly (no sudo, no per-invocation environment), keyed by the argument
list alone. -/
structure OldWorld where
  run : List String → String × Option String
  pipeErr : List String → Option String
  startErr : List String → Option String
  readResult : List String → Except String String

/-- execCmd of the older variant: guestfish args..., output and error
wrapped with the literal command line. -/
def oldExecCmd (w : OldWorld) (args : List String) : String × Option String :=
  match w.run args with
  | (out, none) => (out, none)
  | (out, some e) =>
    (out, some ("error running command \x27guestfish " ++
      String.intercalate " " args ++ "\x27: " ++ e))

/-- startCmd of the older variant. -/
def oldStartCmd (w : OldWorld) (args : List String) : String × Option String :=
  match w.pipeErr args with
  | some e =>
    ("", some ("error getting stdout pipe for command \x27guestfish " ++
      String.intercalate " " args ++ "\x27: " ++ e))
  | none =>
    match w.startErr args with
    | some e =>
      ("", some ("error starting command \x27guestfish " ++
        String.intercalate " " args ++ "\x27: " ++ e))
    | none =>
      match w.readResult args with
      | .error e => ("", some e)
      | .ok outMsg => (outMsg, none)

/-- The newline-terminated lines of a buffer, each including its trailing
newline, in order; an unterminated final fragment is dropped, matching the
older variant reading with buf.ReadString and breaking on io.EOF.  The
first argument accumulates the current line in reverse. -/
def goTerminatedLines (acc : List Char) : List Char → List String
  | [] => []
  | c :: cs =>
    if c = '\n' then
      String.mk (acc.reverse ++ ['\n']) :: goTerminatedLines [] cs
    else goTerminatedLines (c :: acc) cs

/-- The filesystem-list scan of the older variant: each line is split on
":"; a line that does not split into exactly two parts is an error; the
first line whose second part equals "ext4" yields its first part; if no
line matches, bootDisk keeps its zero value "". -/
def oldFindBoot : List String → Except String String
  | [] => .ok ""
  | line :: rest =>
    let diskAndFormat := goSplit line ':'
    if diskAndFormat.length ≠ 2 then
      .error ("invalid filesystem format: " ++ line)
    else if diskAndFormat[1]! = "ext4" then .ok diskAndFormat[0]!
    else oldFindBoot rest

/-- Observable behaviour of the older injectIgnitionByGuestfish: outcome,
the guestfish argument lists issued in order, and the process-global
setenv calls it makes. -/
structure OldInjectOut where
  outcome : Outcome
  trace : List (List String)
  setenvs : List (String × String)
deriving Repr

/-- The older injectIgnitionByGuestfish (src/unnamed/part_000).  Note two
transcribed quirks of that code: the second malformed-handle check re-tests
len(strArray) instead of len(strArray1), and os.Setenv(strArray1[0],
strArray1[1]) is then evaluated unguarded, so a first segment with no "="
makes strArray1[1] an out-of-range access (a panic). -/
def oldInjectIgnitionByGuestfish (w : OldWorld) (domainDef : Domain)
    (ignitionFile : String) : OldInjectOut :=
  match diskSourceFile domainDef with
  | none => ⟨.panicked, [], []⟩
  | some diskFile =>
    match oldStartCmd w (listenArgs diskFile) with
    | (_, some e) => ⟨.err e, [listenArgs diskFile], []⟩
    | (output, none) =>
      let strArray := goSplit output ';'
      if strArray.length ≠ 2 then
        ⟨.err ("Invalid output when starting guestfish: " ++ output),
         [listenArgs diskFile], []⟩
      else
        let strArray1 := goSplit strArray[0]! '='
        if strArray.length ≠ 2 then
          ⟨.err ("failed to get the guestfish PID from " ++ output),
           [listenArgs diskFile], []⟩
        else if strArray1.length < 2 then
          ⟨.panicked, [listenArgs diskFile], []⟩
        else
          let setenvs := [(strArray1[0]!, strArray1[1]!)]
          match oldExecCmd w runArgs with
          | (_, some e) => ⟨.err e, [listenArgs diskFile, runArgs], setenvs⟩
          | (_, none) =>
            let listFsArgs := ["--remote", "--", "list-filesystems"]
            match oldExecCmd w listFsArgs with
            | (_, some e) =>
              ⟨.err e, [listenArgs diskFile, runArgs, listFsArgs], setenvs⟩
            | (output2, none) =>
              match oldFindBoot (goTerminatedLines [] output2.data) with
              | .error e =>
                ⟨.err e, [listenArgs diskFile, runArgs, listFsArgs], setenvs⟩
              | .ok bootDisk =>
                match oldExecCmd w (mountArgs bootDisk) with
                | (_, some e) =>
                  ⟨.err e, [listenArgs diskFile, runArgs, listFsArgs,
                    mountArgs bootDisk], setenvs⟩
                | (_, none) =>
                  match oldExecCmd w (uploadArgs ignitionFile) with
                  | (_, some e) =>
                    ⟨.err e, [listenArgs diskFile, runArgs, listFsArgs,
                      mountArgs bootDisk, uploadArgs ignitionFile], setenvs⟩
                  | (_, none) =>
                    match oldExecCmd w umountArgs with
                    | (_, some e) =>
                      ⟨.err e, [listenArgs diskFile, runArgs, listFsArgs,
                        mountArgs bootDisk, uploadArgs ignitionFile,
                        umountArgs], setenvs⟩
                    | (_, none) =>
                      match oldExecCmd w exitArgs with
                      | (_, some e) =>
                        ⟨.err e, [listenArgs diskFile, runArgs, listFsArgs,
                          mountArgs bootDisk, uploadArgs ignitionFile,
                          umountArgs, exitArgs], setenvs⟩
                      | (_, none) =>
                        ⟨.ok, [listenArgs diskFile, runArgs, listFsArgs,
                          mountArgs bootDisk, uploadArgs ignitionFile,
                          umountArgs, exitArgs], setenvs⟩

/-! ## Configuration resolver (defIgnition.createFile) -/

/-- defIgnition from ignition.go. -/
structure defIgnition where
  Name : String
  PoolName : String
  Content : String
deriving DecidableEq, Repr

/-- newIgnitionDef from ignition.go: the zero value. -/
def newIgnitionDef : defIgnition := ⟨"", "", ""⟩

/-- Oracle for the OS filesystem and the JSON library as used by
createFile: whether ioutil.TempFile succeeds and the unique name it picks,
whether os.Stat of a path succeeds, whether json.Unmarshal of a string
into a map succeeds, whether os.Open of a path succeeds and the bytes of
the file behind it, and whether the WriteString / io.Copy calls succeed. -/
structure CreateFileEnv where
  tempFileOk : Bool
  tempName : String
  statOk : String → Bool
  jsonObjOk : String → Bool
  openOk : String → Bool
  fileBytes : String → String
  writeOk : Bool
  copyOk : Bool

/-- What createFile did: its returned value (temp file name or error), the
temp file it allocated if ioutil.TempFile succeeded (some even when a later
step fails: nothing in the function removes it), and the bytes written
into that temp file. -/
structure CreateFileOut where
  result : Except String String
  allocated : Option String
  tempContents : String
deriving Repr

/-- defIgnition.createFile from ignition.go: create a temp file; if
os.Stat(Content) fails, Content must json.Unmarshal into a map or the
function fails with the neither-a-file-nor-valid-json error; inline content
is written with WriteString, file content is copied with io.Copy.  The
underlying OS error texts are not modelled (no claim depends on them);
the literal message shapes of the fmt.Errorf calls are kept. -/
def createFile (env : CreateFileEnv) (ign : defIgnition) : CreateFileOut :=
  if env.tempFileOk = false then
    { result := .error "Cannot create tmp file for Ignition"
      allocated := none
      tempContents := "" }
  else
    -- file := true; the stat-failure branch may flip it to false
    if env.statOk ign.Content = false then
      if env.jsonObjOk ign.Content = false then
        { result := .error ("coreos_ignition \x27content\x27 is neither a file " ++
            "nor a valid json object " ++ ign.Content)
          allocated := some env.tempName
          tempContents := "" }
      else
        -- file = false: write the inline content
        if env.writeOk = false then
          { result := .error ("Cannot write Ignition object to temporary " ++
              "ignition file")
            allocated := some env.tempName
            tempContents := "" }
        else
          { result := .ok env.tempName
            allocated := some env.tempName
            tempContents := ign.Content }
    else
      -- file = true: open the referenced file and copy it
      if env.openOk ign.Content = false then
        { result := .error ("Error opening supplied Ignition file " ++ ign.Content)
          allocated := some env.tempName
          tempContents := "" }
      else if env.copyOk = false then
        { result := .error ("Error copying supplied Igition file to temporary file: " ++
            ign.Content)
          allocated := some env.tempName
          tempContents := "" }
      else
        { result := .ok env.tempName
          allocated := some env.tempName
          tempContents := env.fileBytes ign.Content }

/-! ## Volume packaging (defIgnition.createAndUpload) -/

/-- The volume descriptor fields that createAndUpload touches. -/
structure DefVolume where
  Name : String
  CapacityUnit : String
  CapacityValue : Nat
  FormatType : String
deriving DecidableEq, Repr

/-- Modelled from the spec: newDefVolume (volume.go, which is not among the
given source files) builds the volume descriptor for the named volume; its
capacity and format fields are then overwritten by createAndUpload. -/
def newDefVolume (name : String) : DefVolume :=
  { Name := name, CapacityUnit := "", CapacityValue := 0, FormatType := "" }

/-- Oracle for the collaborators of createAndUpload: the resolver
environment, newImage and img.size (image.go, not among the given source
files), uploadVolume (volume.go, likewise), and whether os.Remove of the
temp file succeeds. -/
structure UploadEnv where
  cf : CreateFileEnv
  newImageResult : Except String Unit
  sizeResult : Except String Nat
  uploadVolume : String → DefVolume → Except String String
  removeOk : Bool

/-- What createAndUpload did: its returned value, the temp files created
under it, the temp files it passed to os.Remove, and those actually
removed. -/
structure UploadOut where
  result : Except String String
  created : List String
  removeAttempts : List String
  removed : List String
deriving Repr

/-- defIgnition.createAndUpload from ignition.go: materialize the content
via createFile, then size it and upload it as a raw volume of exactly that
byte size.  The deferred os.Remove of the temp file is registered only
after createFile has returned successfully, and then runs on every exit
path (its own failure is only logged). -/
def createAndUpload (env : UploadEnv) (ign : defIgnition) : UploadOut :=
  let volumeDef := newDefVolume ign.Name
  let cf := createFile env.cf ign
  match cf.result with
  | .error e =>
    { result := .error e, created := cf.allocated.toList
      removeAttempts := [], removed := [] }
  | .ok ignFile =>
    let removeAttempts := [ignFile]
    let removed := if env.removeOk then [ignFile] else []
    match env.newImageResult with
    | .error e =>
      { result := .error e, created := cf.allocated.toList
        removeAttempts := removeAttempts, removed := removed }
    | .ok _ =>
      match env.sizeResult with
      | .error e =>
        { result := .error e, created := cf.allocated.toList
          removeAttempts := removeAttempts, removed := removed }
      | .ok size =>
        let volumeDef := { volumeDef with
          CapacityUnit := "B", CapacityValue := size, FormatType := "raw" }
        { result := env.uploadVolume ign.PoolName volumeDef
          created := cf.allocated.toList
          removeAttempts := removeAttempts, removed := removed }

/-! ## Firmware channel path (setIgnition) -/

/-- providerconfigv1.Ignition, the field setIgnition reads. -/
structure Ignition where
  UserDataSecret : String
deriving DecidableEq, Repr

/-- Oracle for setIgnition collaborators: the kube secret store (namespace
and secret name to either an error or the secret Data map) and the upload
environment. -/
structure SetIgnitionEnv where
  getSecret : String → String → Except String (List (String × String))
  upload : UploadEnv

/-- setIgnition from ignition.go: fetch the userData secret, resolve and
upload it, then set the domain QEMU command line to the two fw_cfg
tokens pointing at the uploaded volume. -/
def setIgnition (env : SetIgnitionEnv) (domainDef : Domain) (poolName : String)
    (ignition : Ignition) (machineNamespace volumeName : String) :
    Except String Unit × Domain :=
  if ignition.UserDataSecret = "" then
    (.error "ignition.userDataSecret not set", domainDef)
  else
    match env.getSecret machineNamespace ignition.UserDataSecret with
    | .error e =>
      (.error ("can not retrieve user data secret \x27" ++ machineNamespace ++
        "/" ++ ignition.UserDataSecret ++
        "\x27 when constructing cloud init volume: " ++ e), domainDef)
    | .ok data =>
      match data.lookup "userData" with
      | none =>
        (.error ("can not retrieve user data secret \x27" ++ machineNamespace ++
          "/" ++ ignition.UserDataSecret ++
          "\x27 when constructing cloud init volume: key \x27userData\x27 " ++
          "not found in the secret"), domainDef)
      | some userDataSecret =>
        let ignitionDef : defIgnition :=
          { Name := volumeName, PoolName := poolName, Content := userDataSecret }
        match (createAndUpload env.upload ignitionDef).result with
        | .error e => (.error e, domainDef)
        | .ok ignitionVolumeName =>
          let qemuCommandline : DomainQEMUCommandline :=
            { Args := [ { Value := "-fw_cfg" },
                        { Value := "name=opt/com.coreos/config,file=" ++
                          ignitionVolumeName } ] }
          (.ok (), { domainDef with QEMUCommandline := some qemuCommandline })

/-- Whether an Except result is a success. -/
def isOkE : Except String String → Bool
  | .ok _ => true
  | .error _ => false

/-! ## Concrete instances used by witnesses and counterexamples -/

/-- A domain whose first disk is backed by the file "vm.img". -/
def fishDomain : Domain :=
  { Devices := ⟨[⟨some ⟨some ⟨"vm.img"⟩⟩⟩]⟩, QEMUCommandline := none }

/-- A domain with no disks at all. -/
def emptyDomain : Domain := { Devices := ⟨[]⟩, QEMUCommandline := none }

/-- A world in which every external call succeeds: listen prints the
canonical handle line and findfs-label prints a device with surrounding
whitespace. -/
def okWorld : World :=
  { lookPath := fun s => s
    run := fun c => (if "findfs-label" ∈ c.Args then " /dev/sda1\n" else "", none)
    pipeErr := fun _ => none
    startErr := fun _ => none
    readResult := fun _ => .ok "GUESTFISH_PID=4513; export GUESTFISH_PID" }

/-- A world in which listen succeeds but every remote call fails. -/
def runFailWorld : World :=
  { lookPath := fun s => s
    run := fun _ => ("", some "boom")
    pipeErr := fun _ => none
    startErr := fun _ => none
    readResult := fun _ => .ok "GUESTFISH_PID=4513; export GUESTFISH_PID" }

/-- A world in which the listen step prints output with no semicolon. -/
def badListenWorld : World :=
  { lookPath := fun s => s
    run := fun _ => ("", none)
    pipeErr := fun _ => none
    startErr := fun _ => none
    readResult := fun _ => .ok "garbage" }

/-- A world in which findfs-label prints only whitespace. -/
def noBootWorld : World :=
  { lookPath := fun s => s
    run := fun _ => (" \n", none)
    pipeErr := fun _ => none
    startErr := fun _ => none
    readResult := fun _ => .ok "GUESTFISH_PID=4513; export GUESTFISH_PID" }

/-- An old-variant world whose listen output has two semicolon segments but
no "=" in the first segment. -/
def oldPanicWorld : OldWorld :=
  { run := fun _ => ("", none)
    pipeErr := fun _ => none
    startErr := fun _ => none
    readResult := fun _ => .ok "FOO; bar" }

/-- An old-variant world with the canonical listen output, whose remote
calls all fail. -/
def oldHandleWorld : OldWorld :=
  { run := fun _ => ("", some "x")
    pipeErr := fun _ => none
    startErr := fun _ => none
    readResult := fun _ => .ok "GUESTFISH_PID=4513; export GUESTFISH_PID" }

/-- An old-variant world where nothing happens. -/
def oldTrivialWorld : OldWorld :=
  { run := fun _ => ("", none)
    pipeErr := fun _ => none
    startErr := fun _ => none
    readResult := fun _ => .ok "" }

/-- Resolver environment for the C1 counterexample: the content string
"\x7b\x7d" names an existing path (stat succeeds) that cannot be opened, and
also parses as a JSON object. -/
def c1env : CreateFileEnv :=
  { tempFileOk := true
    tempName := "/tmp/ignition-1"
    statOk := fun s => s == "\x7b\x7d"
    jsonObjOk := fun s => s == "\x7b\x7d"
    openOk := fun _ => false
    fileBytes := fun _ => ""
    writeOk := true
    copyOk := true }

def c1ign : defIgnition :=
  { Name := "ignition", PoolName := "pool", Content := "\x7b\x7d" }

/-- Resolver environment where the referenced file exists, opens, and holds
the bytes "BYTES". -/
def c8env : CreateFileEnv :=
  { tempFileOk := true
    tempName := "/tmp/ignition-8"
    statOk := fun _ => true
    jsonObjOk := fun _ => false
    openOk := fun _ => true
    fileBytes := fun _ => "BYTES"
    writeOk := true
    copyOk := true }

def c8ign : defIgnition :=
  { Name := "ignition", PoolName := "pool", Content := "/etc/ign.json" }

/-- Upload environment whose resolver fails after allocating the temp file:
the content neither stats as a file nor parses as JSON. -/
def c4env : UploadEnv :=
  { cf :=
    { tempFileOk := true
      tempName := "/tmp/ignition-42"
      statOk := fun _ => false
      jsonObjOk := fun _ => false
      openOk := fun _ => false
      fileBytes := fun _ => ""
      writeOk := true
      copyOk := true }
    newImageResult := .ok ()
    sizeResult := .ok 0
    uploadVolume := fun _ _ => .ok "vol"
    removeOk := true }

def c4ign : defIgnition :=
  { Name := "worker-0", PoolName := "default", Content := "not json" }

/-- Upload environment where everything succeeds with inline JSON content. -/
def c4okEnv : UploadEnv :=
  { cf :=
    { tempFileOk := true
      tempName := "/tmp/ignition-ok"
      statOk := fun _ => false
      jsonObjOk := fun _ => true
      openOk := fun _ => false
      fileBytes := fun _ => ""
      writeOk := true
      copyOk := true }
    newImageResult := .ok ()
    sizeResult := .ok 12
    uploadVolume := fun _ _ => .ok "pool/worker-0-ignition"
    removeOk := true }

/-- setIgnition environment where the secret exists and the whole upload
pipeline succeeds, yielding the artifact identifier "vol1". -/
def c5env : SetIgnitionEnv :=
  { getSecret := fun _ _ => .ok [("userData", "ud")]
    upload :=
    { cf :=
      { tempFileOk := true
        tempName := "/tmp/ignition-5"
        statOk := fun _ => false
        jsonObjOk := fun _ => true
        openOk := fun _ => false
        fileBytes := fun _ => ""
        writeOk := true
        copyOk := true }
      newImageResult := .ok ()
      sizeResult := .ok 2
      uploadVolume := fun _ _ => .ok "vol1"
      removeOk := true } }

/-- A domain that already carries a QEMU command-line token "X" before
setIgnition is called. -/
def c5domain : Domain :=
  { Devices := ⟨[]⟩, QEMUCommandline := some ⟨[⟨"X"⟩]⟩ }

/-! ## Theorems -/

/-- Whenever createFile returns successfully, the temp file it allocated is
the one it returns, namely the unique name ioutil.TempFile picked. -/
theorem createFile_ok_allocated (env : CreateFileEnv) (ign : defIgnition)
    (f : String) (h : (createFile env ign).result = .ok f) :
    (createFile env ign).allocated = some env.tempName ∧ f = env.tempName := by
  cases htf : env.tempFileOk <;> cases hst : env.statOk ign.Content <;>
    cases hjs : env.jsonObjOk ign.Content <;> cases hop : env.openOk ign.Content <;>
    cases hw : env.writeOk <;> cases hc : env.copyOk <;>
    simp_all [createFile]

/-- A string of length zero is the empty string. -/
theorem string_eq_empty_of_length_zero (s : String) (h : s.length = 0) : s = "" := by
  cases s with
  | mk l =>
    simp [String.length] at h
    simp [h]

/-- execCmd returns the oracle output unchanged when the underlying run
reports no error. -/
theorem execCmd_ok (w : World) (ur : Bool) (env : Option (List String))
    (args : List String) (o : String)
    (h : w.run (genCmd w.lookPath ur env args) = (o, none)) :
    execCmd w ur env args = (o, none) := by
  simp [execCmd, h]

/-- execCmd wraps a failing run with the literal command line. -/
theorem execCmd_err (w : World) (ur : Bool) (env : Option (List String))
    (args : List String) (o e : String)
    (h : w.run (genCmd w.lookPath ur env args) = (o, some e)) :
    execCmd w ur env args =
      (o, some (wrapRun (genCmd w.lookPath ur env args) e)) := by
  simp [execCmd, h]

/-- A one-element environment override survives genCmd into Cmd.Env. -/
theorem genCmd_true_env (lp : String → String) (s : String) (args : List String) :
    (genCmd lp true (some [s]) args).Env = some [s] := by
  simp [genCmd, envField]

/-- Claim C1, counterexample.  The claim says resolution succeeds whenever
the content parses as a well-formed JSON object.  Take the content string
"\x7b\x7d": it parses as a JSON object, but in an environment where that very
string also names an existing path that cannot be opened (a file named
"\x7b\x7d" without read permission), createFile takes the file branch, never
falls back to JSON, and fails with the open error — which is also not the
InvalidConfiguration ("neither a file nor a valid json object") error the
claim promises for every failure. -/
theorem claim1_counterexample :
    c1env.jsonObjOk c1ign.Content = true ∧
    (createFile c1env c1ign).result =
      .error ("Error opening supplied Ignition file " ++ c1ign.Content) :=
  ⟨rfl, rfl⟩

/-- Claim C1, amended: resolution succeeds iff the temp file can be created
and either the content stats as an existing path, opens, and copies, or it
does not stat and parses as a JSON object and the write succeeds.  The
InvalidConfiguration error is returned exactly on the no-stat/no-JSON path;
a content that stats but cannot be opened fails with the open error
instead, even if it is valid JSON. -/
theorem claim1_amended (env : CreateFileEnv) (ign : defIgnition) :
    (isOkE (createFile env ign).result = true ↔
      (env.tempFileOk = true ∧
        ((env.statOk ign.Content = true ∧ env.openOk ign.Content = true ∧
          env.copyOk = true) ∨
         (env.statOk ign.Content = false ∧ env.jsonObjOk ign.Content = true ∧
          env.writeOk = true)))) ∧
    (env.tempFileOk = true → env.statOk ign.Content = false →
      env.jsonObjOk ign.Content = false →
      (createFile env ign).result =
        .error ("coreos_ignition \x27content\x27 is neither a file " ++
          "nor a valid json object " ++ ign.Content)) ∧
    (env.tempFileOk = true → env.statOk ign.Content = true →
      env.openOk ign.Content = false →
      (createFile env ign).result =
        .error ("Error opening supplied Ignition file " ++ ign.Content)) := by
  refine ⟨?_, ?_, ?_⟩
  · cases htf : env.tempFileOk <;> cases hst : env.statOk ign.Content <;>
      cases hjs : env.jsonObjOk ign.Content <;> cases hop : env.openOk ign.Content <;>
      cases hw : env.writeOk <;> cases hc : env.copyOk <;>
      simp [createFile, isOkE, htf, hst, hjs, hop, hw, hc]
  · intro h1 h2 h3
    simp [createFile, h1, h2, h3]
  · intro h1 h2 h3
    simp [createFile, h1, h2, h3]

/-- Witness for claim C1 (amended), at the concrete environment of the
counterexample: the stat-ok/open-fail path yields the open error. -/
theorem claim1_amended_witness :
    (createFile c1env c1ign).result =
      .error ("Error opening supplied Ignition file " ++ c1ign.Content) :=
  (claim1_amended c1env c1ign).2.2 rfl rfl rfl

/-- Claim C8: round-trip of the resolver.  When the content names an
existing readable file, the temp file holds exactly that file's bytes;
when it is inline JSON, the temp file holds exactly the content string,
with no re-serialization. -/
theorem claim8_roundtrip (env : CreateFileEnv) (ign : defIgnition) :
    (env.tempFileOk = true → env.statOk ign.Content = true →
      env.openOk ign.Content = true → env.copyOk = true →
      (createFile env ign).tempContents = env.fileBytes ign.Content ∧
      (createFile env ign).result = .ok env.tempName) ∧
    (env.tempFileOk = true → env.statOk ign.Content = false →
      env.jsonObjOk ign.Content = true → env.writeOk = true →
      (createFile env ign).tempContents = ign.Content ∧
      (createFile env ign).result = .ok env.tempName) := by
  constructor
  · intro h1 h2 h3 h4
    simp [createFile, h1, h2, h3, h4]
  · intro h1 h2 h3 h4
    simp [createFile, h1, h2, h3, h4]

/-- Witness for claim C8 at a concrete environment where the referenced
file holds the bytes "BYTES". -/
theorem claim8_roundtrip_witness :
    (createFile c8env c8ign).tempContents = "BYTES" ∧
    (createFile c8env c8ign).result = .ok "/tmp/ignition-8" :=
  (claim8_roundtrip c8env c8ign).1 rfl rfl rfl rfl

/-- Claim C4, counterexample.  When the resolver fails after the temporary
file has been allocated (content neither stats as a file nor parses as
JSON), createAndUpload returns before registering the deferred os.Remove:
the allocated temp file is never passed to os.Remove and persists. -/
theorem claim4_counterexample :
    (createAndUpload c4env c4ign).created = ["/tmp/ignition-42"] ∧
    (createAndUpload c4env c4ign).removeAttempts = [] ∧
    (createAndUpload c4env c4ign).removed = [] :=
  ⟨rfl, rfl, rfl⟩

/-- Claim C4, amended: once createFile has returned successfully, the temp
file is passed to os.Remove on every exit path of createAndUpload (and is
removed whenever os.Remove succeeds); but when createFile itself fails
after allocating the temp file, no removal is attempted and the file
persists. -/
theorem claim4_amended (env : UploadEnv) (ign : defIgnition) :
    (∀ f, (createFile env.cf ign).result = .ok f →
      (createAndUpload env ign).removeAttempts = [f] ∧
      (env.removeOk = true → (createAndUpload env ign).removed = [f]) ∧
      (createAndUpload env ign).created = [env.cf.tempName]) ∧
    (∀ e, (createFile env.cf ign).result = .error e →
      (createAndUpload env ign).removeAttempts = [] ∧
      (createAndUpload env ign).removed = [] ∧
      (createAndUpload env ign).result = .error e) := by
  constructor
  · intro f hf
    obtain ⟨hall, hft⟩ := createFile_ok_allocated env.cf ign f hf
    subst hft
    cases hni : env.newImageResult <;> cases hsz : env.sizeResult <;>
      cases hro : env.removeOk <;>
      simp [createAndUpload, hf, hall, hni, hsz, hro]
  · intro e he
    simp [createAndUpload, he]

/-- Witness for claim C4 (amended) at a fully successful environment. -/
theorem claim4_amended_witness :
    (createAndUpload c4okEnv c4ign).removeAttempts = ["/tmp/ignition-ok"] ∧
    (createAndUpload c4okEnv c4ign).removed = ["/tmp/ignition-ok"] ∧
    (createAndUpload c4okEnv c4ign).created = ["/tmp/ignition-ok"] := by
  have h := (claim4_amended c4okEnv c4ign).1 "/tmp/ignition-ok" rfl
  exact ⟨h.1, h.2.1 rfl, h.2.2⟩

/-- Claim C5, counterexample.  setIgnition assigns a fresh QEMUCommandline
rather than appending: a pre-existing token "X" on the domain is gone after
a successful call, contradicting the claim that earlier tokens are still
present. -/
theorem claim5_counterexample :
    (setIgnition c5env c5domain "pool" ⟨"secret"⟩ "ns" "vol").2.QEMUCommandline =
      some ⟨[⟨"-fw_cfg"⟩, ⟨"name=opt/com.coreos/config,file=vol1"⟩]⟩ ∧
    c5domain.QEMUCommandline = some ⟨[⟨"X"⟩]⟩ ∧
    (setIgnition c5env c5domain "pool" ⟨"secret"⟩ "ns" "vol").1 = .ok () :=
  ⟨rfl, rfl, rfl⟩

/-- Claim C5, amended: on every successful upload yielding artifact
identifier v, setIgnition sets (replaces) the domain QEMU command line to
exactly the two tokens "-fw_cfg" and "name=opt/com.coreos/config,file=v",
in that order; any tokens present before the call are discarded. -/
theorem claim5_amended (env : SetIgnitionEnv) (d : Domain) (poolName : String)
    (ignition : Ignition) (ns volumeName : String)
    (data : List (String × String)) (ud v : String)
    (h0 : ignition.UserDataSecret ≠ "")
    (h1 : env.getSecret ns ignition.UserDataSecret = .ok data)
    (h2 : data.lookup "userData" = some ud)
    (h3 : (createAndUpload env.upload ⟨volumeName, poolName, ud⟩).result = .ok v) :
    setIgnition env d poolName ignition ns volumeName =
      (.ok (), { d with QEMUCommandline := some ⟨[⟨"-fw_cfg"⟩,
        ⟨"name=opt/com.coreos/config,file=" ++ v⟩]⟩ }) := by
  simp [setIgnition, h0, h1, h2, h3]

/-- Witness for claim C5 (amended) at the concrete environment. -/
theorem claim5_amended_witness :
    setIgnition c5env c5domain "pool" ⟨"secret"⟩ "ns" "vol" =
      (.ok (), { c5domain with QEMUCommandline := some ⟨[⟨"-fw_cfg"⟩,
        ⟨"name=opt/com.coreos/config,file=" ++ "vol1"⟩]⟩ }) :=
  claim5_amended c5env c5domain "pool" ⟨"secret"⟩ "ns" "vol"
    [("userData", "ud")] "ud" "vol1" (by decide) rfl rfl rfl

/-- Claim C9: both variants of injectIgnitionByGuestfish read
Devices.Disks[0].Source.File.File unguarded; a domain with no disk, or a
first disk without a file-backed source, makes them panic (index out of
range / nil dereference) before any external call, rather than return an
error. -/
theorem claim9_disk_precondition (w : World) (wo : OldWorld) (d : Domain)
    (ign : String) (h : diskSourceFile d = none) :
    injectIgnitionByGuestfish w d ign = ⟨.panicked, [], []⟩ ∧
    oldInjectIgnitionByGuestfish wo d ign = ⟨.panicked, [], []⟩ := by
  constructor
  · unfold injectIgnitionByGuestfish
    rw [h]
  · unfold oldInjectIgnitionByGuestfish
    rw [h]

/-- Witness for claim C9 at the empty-disk domain. -/
theorem claim9_disk_precondition_witness :
    injectIgnitionByGuestfish okWorld emptyDomain "ign" = ⟨.panicked, [], []⟩ ∧
    oldInjectIgnitionByGuestfish oldTrivialWorld emptyDomain "ign" =
      ⟨.panicked, [], []⟩ :=
  claim9_disk_precondition okWorld oldTrivialWorld emptyDomain "ign" rfl

/-- Claim C10: in the older variant, listen output that splits on ";" into
exactly two segments whose first segment has no "=" slips past the
malformed-handle check (which re-tests the ";" split), and the subsequent
strArray1[1] access is out of range: the function panics instead of
returning a parse error. -/
theorem claim10_parse_panic (w : OldWorld) (d : Domain) (f ign o seg0 seg1 : String)
    (hdisk : diskSourceFile d = some f)
    (hlisten : oldStartCmd w (listenArgs f) = (o, none))
    (hsplit : goSplit o ';' = [seg0, seg1])
    (hkv : (goSplit seg0 '=').length = 1) :
    oldInjectIgnitionByGuestfish w d ign = ⟨.panicked, [listenArgs f], []⟩ := by
  unfold oldInjectIgnitionByGuestfish
  rw [hdisk]
  simp [hlisten, hsplit, hkv, List.getElem!_cons_zero]

/-- Witness for claim C10 at the listen output "FOO; bar". -/
theorem claim10_parse_panic_witness :
    oldInjectIgnitionByGuestfish oldPanicWorld fishDomain "ign" =
      ⟨.panicked, [listenArgs "vm.img"], []⟩ :=
  claim10_parse_panic oldPanicWorld fishDomain "vm.img" "ign" "FOO; bar"
    "FOO" " bar" rfl rfl rfl rfl

/-- Claim C2: after a successful filesystem-label lookup printing output o2,
if the whitespace-trimmed output is empty the session stops with the
boot-filesystem-not-found error (the fmt.Errorf text is "failed to get the
boot filesystem") having issued exactly listen, run and findfs-label — in
particular no mount invocation; if the trimmed output is non-empty, the
fourth invocation issued is mount with exactly that trimmed device string. -/
theorem claim2_boot_lookup (w : World) (d : Domain) (ign f o seg0 seg1 o1 o2 : String)
    (hdisk : diskSourceFile d = some f)
    (hlisten : startCmd w true none (listenArgs f) = (o, none))
    (hsplit : goSplit o ';' = [seg0, seg1])
    (hkv : (goSplit seg0 '=').length = 2)
    (hrun : w.run (genCmd w.lookPath true (some [seg0]) runArgs) = (o1, none))
    (hfind : w.run (genCmd w.lookPath true (some [seg0]) findfsArgs) = (o2, none)) :
    (goTrimSpace o2 = "" →
      injectIgnitionByGuestfish w d ign =
        ⟨.err "failed to get the boot filesystem",
         [genCmd w.lookPath true none (listenArgs f),
          genCmd w.lookPath true (some [seg0]) runArgs,
          genCmd w.lookPath true (some [seg0]) findfsArgs], []⟩) ∧
    (goTrimSpace o2 ≠ "" →
      (injectIgnitionByGuestfish w d ign).trace.take 4 =
        [genCmd w.lookPath true none (listenArgs f),
         genCmd w.lookPath true (some [seg0]) runArgs,
         genCmd w.lookPath true (some [seg0]) findfsArgs,
         genCmd w.lookPath true (some [seg0]) (mountArgs (goTrimSpace o2))]) := by
  have hrun' := execCmd_ok w true (some [seg0]) runArgs o1 hrun
  have hfind' := execCmd_ok w true (some [seg0]) findfsArgs o2 hfind
  constructor
  · intro h0
    have h0l : (goTrimSpace o2).length = 0 := by rw [h0]; rfl
    unfold injectIgnitionByGuestfish
    rw [hdisk]
    simp [hlisten, hsplit, hkv, hrun', hfind', h0l, List.getElem!_cons_zero]
  · intro h0
    have h0l : ¬((goTrimSpace o2).length = 0) := fun hc =>
      h0 (string_eq_empty_of_length_zero _ hc)
    unfold injectIgnitionByGuestfish
    rw [hdisk]
    rcases hm : execCmd w true (some [seg0]) (mountArgs (goTrimSpace o2)) with ⟨o3, e3⟩
    rcases hup : execCmd w true (some [seg0]) (uploadArgs ign) with ⟨o4, e4⟩
    rcases hum : execCmd w true (some [seg0]) umountArgs with ⟨o5, e5⟩
    rcases hex : execCmd w true (some [seg0]) exitArgs with ⟨o6, e6⟩
    cases e3 <;> cases e4 <;> cases e5 <;> cases e6 <;>
      simp [hlisten, hsplit, hkv, hrun', hfind', h0l, hm, hup, hum, hex,
        List.getElem!_cons_zero]

/-- Witness for claim C2 at a world where findfs-label prints a device with
surrounding whitespace: the mount step is issued with the trimmed device. -/
theorem claim2_boot_lookup_witness :
    (injectIgnitionByGuestfish okWorld fishDomain "ign").trace.take 4 =
      [genCmd okWorld.lookPath true none (listenArgs "vm.img"),
       genCmd okWorld.lookPath true (some ["GUESTFISH_PID=4513"]) runArgs,
       genCmd okWorld.lookPath true (some ["GUESTFISH_PID=4513"]) findfsArgs,
       genCmd okWorld.lookPath true (some ["GUESTFISH_PID=4513"])
         (mountArgs "/dev/sda1")] :=
  (claim2_boot_lookup okWorld fishDomain "ign" "vm.img"
    "GUESTFISH_PID=4513; export GUESTFISH_PID" "GUESTFISH_PID=4513"
    " export GUESTFISH_PID" "" " /dev/sda1\n" rfl rfl rfl rfl rfl rfl).2
    (by decide)

/-- Every invocation after the listen step carries the captured handle
(the first ";"-segment of the listen output) as its per-invocation
environment override, in every continuation of the session. -/
theorem inject_trace_tail_env (w : World) (d : Domain) (ign f o seg0 seg1 : String)
    (hdisk : diskSourceFile d = some f)
    (hlisten : startCmd w true none (listenArgs f) = (o, none))
    (hsplit : goSplit o ';' = [seg0, seg1]) :
    ∀ c ∈ (injectIgnitionByGuestfish w d ign).trace.tail, c.Env = some [seg0] := by
  unfold injectIgnitionByGuestfish
  rw [hdisk]
  rcases hr : execCmd w true (some [seg0]) runArgs with ⟨o1, e1⟩
  rcases hf2 : execCmd w true (some [seg0]) findfsArgs with ⟨o2, e2⟩
  rcases hm : execCmd w true (some [seg0]) (mountArgs (goTrimSpace o2)) with ⟨o3, e3⟩
  rcases hup : execCmd w true (some [seg0]) (uploadArgs ign) with ⟨o4, e4⟩
  rcases hum : execCmd w true (some [seg0]) umountArgs with ⟨o5, e5⟩
  rcases hex : execCmd w true (some [seg0]) exitArgs with ⟨o6, e6⟩
  by_cases hkv : (goSplit seg0 '=').length = 2 <;>
    by_cases h0 : (goTrimSpace o2).length = 0 <;>
    cases e1 <;> cases e2 <;> cases e3 <;> cases e4 <;> cases e5 <;> cases e6 <;>
    simp [hlisten, hsplit, hkv, h0, hr, hf2, hm, hup, hum, hex,
      List.getElem!_cons_zero, genCmd_true_env]

/-- Claim C3: with the documented listen output the captured override is
exactly "GUESTFISH_PID=4513" on every subsequent invocation; output that
does not split on ";" into exactly two segments, or whose first segment
does not split on "=" into exactly two parts, stops the session after the
listen step with the respective parse error. -/
theorem claim3_handle_parse (w : World) (d : Domain) (ign f o : String)
    (hdisk : diskSourceFile d = some f)
    (hlisten : startCmd w true none (listenArgs f) = (o, none)) :
    (o = "GUESTFISH_PID=4513; export GUESTFISH_PID" →
      ∀ c ∈ (injectIgnitionByGuestfish w d ign).trace.tail,
        c.Env = some ["GUESTFISH_PID=4513"]) ∧
    ((goSplit o ';').length ≠ 2 →
      injectIgnitionByGuestfish w d ign =
        ⟨.err ("Invalid output when starting guestfish: " ++ o),
         [genCmd w.lookPath true none (listenArgs f)], []⟩) ∧
    (∀ seg0 seg1, goSplit o ';' = [seg0, seg1] →
      (goSplit seg0 '=').length ≠ 2 →
      injectIgnitionByGuestfish w d ign =
        ⟨.err ("failed to get the guestfish PID from " ++ o),
         [genCmd w.lookPath true none (listenArgs f)], []⟩) := by
  refine ⟨?_, ?_, ?_⟩
  · intro ho
    subst ho
    exact inject_trace_tail_env w d ign f _ "GUESTFISH_PID=4513"
      " export GUESTFISH_PID" hdisk hlisten (by decide)
  · intro hlen
    unfold injectIgnitionByGuestfish
    rw [hdisk]
    simp [hlisten, hlen]
  · intro seg0 seg1 hsplit hkv
    unfold injectIgnitionByGuestfish
    rw [hdisk]
    simp [hlisten, hsplit, hkv, List.getElem!_cons_zero]

/-- Witness for claim C3 at a listen output with no ";" separator. -/
theorem claim3_handle_parse_witness :
    injectIgnitionByGuestfish badListenWorld fishDomain "ign" =
      ⟨.err ("Invalid output when starting guestfish: " ++ "garbage"),
       [genCmd badListenWorld.lookPath true none (listenArgs "vm.img")], []⟩ :=
  (claim3_handle_parse badListenWorld fishDomain "ign" "vm.img" "garbage"
    rfl rfl).2.1 (by decide)

/-- Claim C7, counterexample.  The older variant publishes the parsed
handle with a process-wide os.Setenv: on the canonical listen output its
setenv list is non-empty, contradicting "no step of the filesystem-
injection sequence mutates the provisioning process's own global
environment". -/
theorem claim7_counterexample :
    (oldInjectIgnitionByGuestfish oldHandleWorld fishDomain "ign").setenvs =
      [("GUESTFISH_PID", "4513")] := rfl

/-- Claim C7, amended: in the current variant the handle is supplied only
per-invocation — the function performs no process-global setenv, and every
invocation after the listen step carries the handle in its own Cmd.Env. -/
theorem claim7_amended (w : World) (d : Domain) (ign : String) :
    (injectIgnitionByGuestfish w d ign).setenvs = [] ∧
    (∀ f o seg0 seg1, diskSourceFile d = some f →
      startCmd w true none (listenArgs f) = (o, none) →
      goSplit o ';' = [seg0, seg1] →
      ∀ c ∈ (injectIgnitionByGuestfish w d ign).trace.tail,
        c.Env = some [seg0]) := by
  constructor
  · unfold injectIgnitionByGuestfish
    rcases hd : diskSourceFile d with _ | f
    · rfl
    · rcases hls : startCmd w true none (listenArgs f) with ⟨o, e0⟩
      cases e0 with
      | some e => simp [hls]
      | none =>
        rcases hr : execCmd w true (some [(goSplit o ';')[0]!]) runArgs with ⟨o1, e1⟩
        rcases hf2 : execCmd w true (some [(goSplit o ';')[0]!]) findfsArgs with ⟨o2, e2⟩
        rcases hm : execCmd w true (some [(goSplit o ';')[0]!])
          (mountArgs (goTrimSpace o2)) with ⟨o3, e3⟩
        rcases hup : execCmd w true (some [(goSplit o ';')[0]!])
          (uploadArgs ign) with ⟨o4, e4⟩
        rcases hum : execCmd w true (some [(goSplit o ';')[0]!]) umountArgs with ⟨o5, e5⟩
        rcases hex : execCmd w true (some [(goSplit o ';')[0]!]) exitArgs with ⟨o6, e6⟩
        by_cases h1 : (goSplit o ';').length = 2 <;>
          by_cases h2 : (goSplit (goSplit o ';')[0]! '=').length = 2 <;>
          by_cases h0 : (goTrimSpace o2).length = 0 <;>
          cases e1 <;> cases e2 <;> cases e3 <;> cases e4 <;> cases e5 <;> cases e6 <;>
          simp [hls, h1, h2, h0, hr, hf2, hm, hup, hum, hex]
  · intro f o seg0 seg1 hdisk hlisten hsplit
    exact inject_trace_tail_env w d ign f o seg0 seg1 hdisk hlisten hsplit

/-- Witness for claim C7 (amended): the current variant records no setenv
calls on a fully successful session. -/
theorem claim7_amended_witness :
    (injectIgnitionByGuestfish okWorld fishDomain "ign").setenvs = [] :=
  (claim7_amended okWorld fishDomain "ign").1

/-- Claim C6: the session executes listen, run, findfs-label, mount,
upload, umount-all, exit in that fixed order; when all succeed the trace is
exactly those seven invocations, and a failure at any step from run
through umount-all stops the session with an error wrapping that step's
literal command line, the trace ending at the failed step. -/
theorem claim6_step_order (w : World) (d : Domain) (ign f o seg0 seg1 : String)
    (hdisk : diskSourceFile d = some f)
    (hlisten : startCmd w true none (listenArgs f) = (o, none))
    (hsplit : goSplit o ';' = [seg0, seg1])
    (hkv : (goSplit seg0 '=').length = 2) :
    (∀ o1 o2 o3 o4 o5 o6,
      w.run (genCmd w.lookPath true (some [seg0]) runArgs) = (o1, none) →
      w.run (genCmd w.lookPath true (some [seg0]) findfsArgs) = (o2, none) →
      goTrimSpace o2 ≠ "" →
      w.run (genCmd w.lookPath true (some [seg0]) (mountArgs (goTrimSpace o2))) =
        (o3, none) →
      w.run (genCmd w.lookPath true (some [seg0]) (uploadArgs ign)) = (o4, none) →
      w.run (genCmd w.lookPath true (some [seg0]) umountArgs) = (o5, none) →
      w.run (genCmd w.lookPath true (some [seg0]) exitArgs) = (o6, none) →
      injectIgnitionByGuestfish w d ign =
        ⟨.ok,
         [genCmd w.lookPath true none (listenArgs f),
          genCmd w.lookPath true (some [seg0]) runArgs,
          genCmd w.lookPath true (some [seg0]) findfsArgs,
          genCmd w.lookPath true (some [seg0]) (mountArgs (goTrimSpace o2)),
          genCmd w.lookPath true (some [seg0]) (uploadArgs ign),
          genCmd w.lookPath true (some [seg0]) umountArgs,
          genCmd w.lookPath true (some [seg0]) exitArgs], []⟩) ∧
    (∀ r e, w.run (genCmd w.lookPath true (some [seg0]) runArgs) = (r, some e) →
      injectIgnitionByGuestfish w d ign =
        ⟨.err (wrapRun (genCmd w.lookPath true (some [seg0]) runArgs) e),
         [genCmd w.lookPath true none (listenArgs f),
          genCmd w.lookPath true (some [seg0]) runArgs], []⟩) ∧
    (∀ o1 r e,
      w.run (genCmd w.lookPath true (some [seg0]) runArgs) = (o1, none) →
      w.run (genCmd w.lookPath true (some [seg0]) findfsArgs) = (r, some e) →
      injectIgnitionByGuestfish w d ign =
        ⟨.err (wrapRun (genCmd w.lookPath true (some [seg0]) findfsArgs) e),
         [genCmd w.lookPath true none (listenArgs f),
          genCmd w.lookPath true (some [seg0]) runArgs,
          genCmd w.lookPath true (some [seg0]) findfsArgs], []⟩) ∧
    (∀ o1 o2 r e,
      w.run (genCmd w.lookPath true (some [seg0]) runArgs) = (o1, none) →
      w.run (genCmd w.lookPath true (some [seg0]) findfsArgs) = (o2, none) →
      goTrimSpace o2 ≠ "" →
      w.run (genCmd w.lookPath true (some [seg0]) (mountArgs (goTrimSpace o2))) =
        (r, some e) →
      injectIgnitionByGuestfish w d ign =
        ⟨.err (wrapRun
            (genCmd w.lookPath true (some [seg0]) (mountArgs (goTrimSpace o2))) e),
         [genCmd w.lookPath true none (listenArgs f),
          genCmd w.lookPath true (some [seg0]) runArgs,
          genCmd w.lookPath true (some [seg0]) findfsArgs,
          genCmd w.lookPath true (some [seg0]) (mountArgs (goTrimSpace o2))], []⟩) ∧
    (∀ o1 o2 o3 r e,
      w.run (genCmd w.lookPath true (some [seg0]) runArgs) = (o1, none) →
      w.run (genCmd w.lookPath true (some [seg0]) findfsArgs) = (o2, none) →
      goTrimSpace o2 ≠ "" →
      w.run (genCmd w.lookPath true (some [seg0]) (mountArgs (goTrimSpace o2))) =
        (o3, none) →
      w.run (genCmd w.lookPath true (some [seg0]) (uploadArgs ign)) = (r, some e) →
      injectIgnitionByGuestfish w d ign =
        ⟨.err (wrapRun (genCmd w.lookPath true (some [seg0]) (uploadArgs ign)) e),
         [genCmd w.lookPath true none (listenArgs f),
          genCmd w.lookPath true (some [seg0]) runArgs,
          genCmd w.lookPath true (some [seg0]) findfsArgs,
          genCmd w.lookPath true (some [seg0]) (mountArgs (goTrimSpace o2)),
          genCmd w.lookPath true (some [seg0]) (uploadArgs ign)], []⟩) ∧
    (∀ o1 o2 o3 o4 r e,
      w.run (genCmd w.lookPath true (some [seg0]) runArgs) = (o1, none) →
      w.run (genCmd w.lookPath true (some [seg0]) findfsArgs) = (o2, none) →
      goTrimSpace o2 ≠ "" →
      w.run (genCmd w.lookPath true (some [seg0]) (mountArgs (goTrimSpace o2))) =
        (o3, none) →
      w.run (genCmd w.lookPath true (some [seg0]) (uploadArgs ign)) = (o4, none) →
      w.run (genCmd w.lookPath true (some [seg0]) umountArgs) = (r, some e) →
      injectIgnitionByGuestfish w d ign =
        ⟨.err (wrapRun (genCmd w.lookPath true (some [seg0]) umountArgs) e),
         [genCmd w.lookPath true none (listenArgs f),
          genCmd w.lookPath true (some [seg0]) runArgs,
          genCmd w.lookPath true (some [seg0]) findfsArgs,
          genCmd w.lookPath true (some [seg0]) (mountArgs (goTrimSpace o2)),
          genCmd w.lookPath true (some [seg0]) (uploadArgs ign),
          genCmd w.lookPath true (some [seg0]) umountArgs], []⟩) := by
  refine ⟨?_, ?_, ?_, ?_, ?_, ?_⟩
  · intro o1 o2 o3 o4 o5 o6 h1 h2 h0 h3 h4 h5 h6
    have h0l : ¬((goTrimSpace o2).length = 0) := fun hc =>
      h0 (string_eq_empty_of_length_zero _ hc)
    have h1' := execCmd_ok w true (some [seg0]) runArgs o1 h1
    have h2' := execCmd_ok w true (some [seg0]) findfsArgs o2 h2
    have h3' := execCmd_ok w true (some [seg0]) (mountArgs (goTrimSpace o2)) o3 h3
    have h4' := execCmd_ok w true (some [seg0]) (uploadArgs ign) o4 h4
    have h5' := execCmd_ok w true (some [seg0]) umountArgs o5 h5
    have h6' := execCmd_ok w true (some [seg0]) exitArgs o6 h6
    unfold injectIgnitionByGuestfish
    rw [hdisk]
    simp [hlisten, hsplit, hkv, h0l, h1', h2', h3', h4', h5', h6',
      List.getElem!_cons_zero]
  · intro r e h1
    have h1' := execCmd_err w true (some [seg0]) runArgs r e h1
    unfold injectIgnitionByGuestfish
    rw [hdisk]
    simp [hlisten, hsplit, hkv, h1', List.getElem!_cons_zero]
  · intro o1 r e h1 h2
    have h1' := execCmd_ok w true (some [seg0]) runArgs o1 h1
    have h2' := execCmd_err w true (some [seg0]) findfsArgs r e h2
    unfold injectIgnitionByGuestfish
    rw [hdisk]
    simp [hlisten, hsplit, hkv, h1', h2', List.getElem!_cons_zero]
  · intro o1 o2 r e h1 h2 h0 h3
    have h0l : ¬((goTrimSpace o2).length = 0) := fun hc =>
      h0 (string_eq_empty_of_length_zero _ hc)
    have h1' := execCmd_ok w true (some [seg0]) runArgs o1 h1
    have h2' := execCmd_ok w true (some [seg0]) findfsArgs o2 h2
    have h3' := execCmd_err w true (some [seg0]) (mountArgs (goTrimSpace o2)) r e h3
    unfold injectIgnitionByGuestfish
    rw [hdisk]
    simp [hlisten, hsplit, hkv, h0l, h1', h2', h3', List.getElem!_cons_zero]
  · intro o1 o2 o3 r e h1 h2 h0 h3 h4
    have h0l : ¬((goTrimSpace o2).length = 0) := fun hc =>
      h0 (string_eq_empty_of_length_zero _ hc)
    have h1' := execCmd_ok w true (some [seg0]) runArgs o1 h1
    have h2' := execCmd_ok w true (some [seg0]) findfsArgs o2 h2
    have h3' := execCmd_ok w true (some [seg0]) (mountArgs (goTrimSpace o2)) o3 h3
    have h4' := execCmd_err w true (some [seg0]) (uploadArgs ign) r e h4
    unfold injectIgnitionByGuestfish
    rw [hdisk]
    simp [hlisten, hsplit, hkv, h0l, h1', h2', h3', h4', List.getElem!_cons_zero]
  · intro o1 o2 o3 o4 r e h1 h2 h0 h3 h4 h5
    have h0l : ¬((goTrimSpace o2).length = 0) := fun hc =>
      h0 (string_eq_empty_of_length_zero _ hc)
    have h1' := execCmd_ok w true (some [seg0]) runArgs o1 h1
    have h2' := execCmd_ok w true (some [seg0]) findfsArgs o2 h2
    have h3' := execCmd_ok w true (some [seg0]) (mountArgs (goTrimSpace o2)) o3 h3
    have h4' := execCmd_ok w true (some [seg0]) (uploadArgs ign) o4 h4
    have h5' := execCmd_err w true (some [seg0]) umountArgs r e h5
    unfold injectIgnitionByGuestfish
    rw [hdisk]
    simp [hlisten, hsplit, hkv, h0l, h1', h2', h3', h4', h5',
      List.getElem!_cons_zero]

/-- Witness for claim C6: the fully successful session issues exactly the
seven invocations in order. -/
theorem claim6_step_order_witness :
    injectIgnitionByGuestfish okWorld fishDomain "ign" =
      ⟨.ok,
       [genCmd okWorld.lookPath true none (listenArgs "vm.img"),
        genCmd okWorld.lookPath true (some ["GUESTFISH_PID=4513"]) runArgs,
        genCmd okWorld.lookPath true (some ["GUESTFISH_PID=4513"]) findfsArgs,
        genCmd okWorld.lookPath true (some ["GUESTFISH_PID=4513"])
          (mountArgs "/dev/sda1"),
        genCmd okWorld.lookPath true (some ["GUESTFISH_PID=4513"])
          (uploadArgs "ign"),
        genCmd okWorld.lookPath true (some ["GUESTFISH_PID=4513"]) umountArgs,
        genCmd okWorld.lookPath true (some ["GUESTFISH_PID=4513"]) exitArgs],
       []⟩ :=
  (claim6_step_order okWorld fishDomain "ign" "vm.img"
    "GUESTFISH_PID=4513; export GUESTFISH_PID" "GUESTFISH_PID=4513"
    " export GUESTFISH_PID" rfl rfl rfl rfl).1 "" " /dev/sda1\n" "" "" "" ""
    rfl rfl (by decide) rfl rfl rfl rfl

end LibvirtIgnition
